import Mathlib

/-!
Verification of the TethysAPI binding layer (OutpostUniverse/TethysAPI).

The repository is a header-only C++ binding layer over a fixed, closed-source
host executable (Outpost 2).  Methods either access struct fields of
binary-owned objects or perform calls ("thunks") into fixed addresses of the
host binary.  We embed the binding layer shallowly:

* External interactions are reified as a trace of `ExtOp` events.  A thunk
  into a fixed address becomes `ExtOp.call addr args`; a call into repository
  code whose header is not part of the analysed sources (e.g. `MapImpl`,
  `TerrainManager`, `Random`) becomes `ExtOp.named name args`.
* The behaviour of the closed-source host binary is an oracle, `Host`: it
  supplies a return value for every call, the value written through a `Unit&`
  out-parameter, and the results of the repository-external routines.
* Methods become Lean functions returning their value paired with the list of
  external operations they performed, in program order.  Methods of the
  binding layer never mutate anything themselves, so this purely functional
  reading is exact.
-/

namespace Tethys

/-- Argument values passed to the host binary: integers (covering ints, bools,
enums, object ids and flattened structs) and C strings. -/
inductive Val
  | i : Int → Val
  | s : String → Val
  deriving DecidableEq, Repr

/-- One external operation performed by a binding-layer method: a thunk call
into a fixed address of the host executable, or a call into a repository
routine whose defining header is outside the analysed sources. -/
inductive ExtOp
  | call  : Nat → List Val → ExtOp
  | named : String → List Val → ExtOp
  deriving DecidableEq, Repr

/-- Oracle for everything outside the analysed sources: `ret addr args` is the
integer returned by the thunk at `addr`, `out addr args` is the id the thunk
writes through a `Unit&` out-parameter, `namedRet name args` is the result of
a repository-external routine, and `isVehicle id` is the result of
`Unit::IsVehicle()` (Unit.h is not among the analysed sources). -/
structure Host where
  ret      : Nat → List Val → Int
  out      : Nat → List Val → Int
  namedRet : String → List Val → Int
  isVehicle : Int → Bool

/-- Map tile coordinates.  Modelled from the spec: Location.h is not among the
analysed sources; a `Location` is an (x, y) tile coordinate pair and
`Location(dx, dy)` offsets add componentwise. -/
structure Location where
  x : Int
  y : Int
  deriving DecidableEq, Repr

instance : Add Location := ⟨fun a b => ⟨a.x + b.x, a.y + b.y⟩⟩

theorem Location.add_def (a b : Location) : a + b = ⟨a.x + b.x, a.y + b.y⟩ := rfl

/-- Map tile rectangle.  Modelled from the spec: Location.h is not among the
analysed sources; `x1/y1` and `x2/y2` are the inclusive corners. -/
structure MapRect where
  x1 : Int
  y1 : Int
  x2 : Int
  y2 : Int
  deriving DecidableEq, Repr

/-- MapRect::Width(), modelled as the inclusive width of the rectangle. -/
def MapRect.Width (r : MapRect) : Int := r.x2 - r.x1 + 1

/-- MapRect::Height(), modelled as the inclusive height of the rectangle. -/
def MapRect.Height (r : MapRect) : Int := r.y2 - r.y1 + 1

/-- A Unit handle (wraps a map-object / stub index).  ScStub.h and Unit.h are
not among the analysed sources; a Unit is identified by its id. -/
structure GameUnit where
  id : Int
  deriving DecidableEq, Repr

/-- Modelled from the spec: a default-constructed `Unit()` is the null unit
reference (its concrete id value is immaterial to every theorem below). -/
def nullUnit : GameUnit := ⟨0⟩

/-- A Trigger handle (wraps ScStub index id_). -/
structure Trigger where
  id : Int
  deriving DecidableEq, Repr

/-- Encodes a C++ bool passed as an `ibool` thunk argument. -/
def bi (b : Bool) : Val := .i (if b then 1 else 0)

/-! ## Common/Util.h -/

/-- BitFlagTest from Common/Util.h: `(mask & flag) != 0`. -/
def BitFlagTest (mask flag : Nat) : Bool := (mask &&& flag) != 0

/-- SetBitFlag from Common/Util.h:
`out ^= (out ^ (on ? flag : 0)) & flag`, returning the new value of `out`.
Fixed-width machine integers embed exactly into `Nat` here because xor and
and never overflow. -/
def SetBitFlag (out flag : Nat) (setOn : Bool) : Nat :=
  out ^^^ ((out ^^^ (if setOn then flag else 0)) &&& flag)

/-- Trailing-zero count of a `w`-bit word, as computed by the `_tzcnt_u32`
instruction: the number of trailing zero bits, and the full width `w` when
the operand is zero. -/
def tzcnt : Nat → Nat → Nat
  | 0, _ => 0
  | w + 1, m => if m % 2 = 1 then 0 else 1 + tzcnt w (m / 2)

/-- The scan loop of GetNextBit's last-resort portable branch in
Common/Util.h: `for (; (mask & 1) == 0; mask >>= 1, ++index);` starting from
`index`, with fuel bounding the 32 possible iterations of a nonzero uint32. -/
def scanLoop : Nat → Nat → Nat → Nat
  | 0, _, index => index
  | fuel + 1, mask, index =>
      if mask % 2 = 0 then scanLoop fuel (mask / 2) (index + 1) else index

/-- GetNextBit from Common/Util.h, Win32/x86 branch (the primary build target
of this binding layer: `_M_IX86`, FASTCALL thunks into a 32-bit binary).
`*pIndex = _tzcnt_u32(mask)` executes unconditionally, then the function
returns `mask != 0`.  Input: previous `*pIndex` value and `mask`; output:
(returned bool, new `*pIndex` value). -/
def GetNextBit (_pIndex mask : Nat) : Bool × Nat :=
  (mask != 0, tzcnt 32 mask)

/-- GetNextBit from Common/Util.h, portable fallback branch (the `#else`
branch with no intrinsics): the scan loop runs and stores only when
`mask != 0`; the function returns `mask != 0`. -/
def GetNextBitPortable (pIndex mask : Nat) : Bool × Nat :=
  if mask = 0 then (false, pIndex) else (true, scanLoop 32 mask 0)

/-! ## API/Game.h -/

/-- Name of `Unit::DoSetLights` (Unit.h is not among the analysed sources). -/
def opDoSetLights : String := "Unit.DoSetLights"

/-- Name of the `_Player::GetInstance(6)->GetBeacons()` read performed by
CreateWreckage and CreateMine (Player.h is not among the analysed sources). -/
def opGetBeacons : String := "Player6.GetBeacons"

/-- Name of `Random::GetInstance()->Rand` (Game/Random.h is not among the
analysed sources). -/
def opRand : String := "Random.Rand"

/-- Name of `MineManager::GetInstance()->GetVariantNum` (MineManager's header
is not among the analysed sources). -/
def opGetVariantNum : String := "MineManager.GetVariantNum"

/-- Argument list of the `OP2Thunk<0x478780, ibool FASTCALL(Unit&, MapID,
Location, int, MapID, UnitDirection)>` call in Game::CreateUnit, the `Unit&`
out-parameter excluded. -/
def createUnitArgs (type : Int) (w : Location) (ownerNum weaponCargo rotation : Int) :
    List Val :=
  [.i type, .i w.x, .i w.y, .i ownerNum, .i weaponCargo, .i rotation]

/-- Game::CreateUnit from API/Game.h: constructs `u` through the thunk at
0x478780, then `if (u.IsVehicle() && lightsOn) u.DoSetLights(true);` and
returns `u`. -/
def CreateUnit (h : Host) (type : Int) (w : Location)
    (ownerNum weaponCargo rotation : Int) (lightsOn : Bool) : GameUnit × List ExtOp :=
  let args := createUnitArgs type w ownerNum weaponCargo rotation
  let uid := h.out 0x478780 args
  if h.isVehicle uid && lightsOn then
    (⟨uid⟩, [ExtOp.call 0x478780 args, ExtOp.named opDoSetLights [.i uid, bi true]])
  else
    (⟨uid⟩, [ExtOp.call 0x478780 args])

/-- Argument list of the `OP2Thunk<0x4789F0, ibool FASTCALL(int, int, int,
ibool)>` call in Game::CreateWreckage. -/
def wreckArgs (w : Location) (techID : Int) (isDiscovered : Bool) : List Val :=
  [.i w.x, .i w.y, .i techID, bi isDiscovered]

/-- Game::CreateWreckage from API/Game.h:
`return ((techID >= 8000) && (techID <= 12095) && OP2Thunk<0x4789F0, ...>(
location.x, location.y, techID, isDiscovered)) ?
*(_Player::GetInstance(6)->GetBeacons()) : Unit();` with C++ short-circuit
evaluation: the thunk runs only when the range test passes, and the beacon
read only when the thunk returns nonzero. -/
def CreateWreckage (h : Host) (w : Location) (techID : Int) (isDiscovered : Bool) :
    GameUnit × List ExtOp :=
  if 8000 ≤ techID ∧ techID ≤ 12095 then
    if h.ret 0x4789F0 (wreckArgs w techID isDiscovered) ≠ 0 then
      (⟨h.namedRet opGetBeacons []⟩,
       [ExtOp.call 0x4789F0 (wreckArgs w techID isDiscovered), ExtOp.named opGetBeacons []])
    else
      (nullUnit, [ExtOp.call 0x4789F0 (wreckArgs w techID isDiscovered)])
  else
    (nullUnit, [])

/-- MineType::MagmaVent = -2 (API/Game.h). -/
def mineTypeMagmaVent : Int := -2

/-- MineType::Fumarole = -3 (API/Game.h). -/
def mineTypeFumarole : Int := -3

/-- MineType::RandomOre = int(OreType::Random).  Modelled from the spec:
OreType's header is not among the analysed sources; the random sentinel is -1
as in the original game SDK (only `max type mineTypeRandomOre` uses it). -/
def mineTypeRandomOre : Int := -1

/-- OreYield::Random sentinel.  Modelled from the spec (header not in the
analysed sources): -1, with Bar1/Bar2/Bar3 the three concrete yields. -/
def oreYieldRandom : Int := -1

/-- OreYield::Bar1 (modelled; concrete value immaterial). -/
def oreYieldBar1 : Int := 0

/-- OreYield::Bar2 (modelled; concrete value immaterial). -/
def oreYieldBar2 : Int := 1

/-- OreYield::Bar3 (modelled; concrete value immaterial). -/
def oreYieldBar3 : Int := 2

/-- OreVariant::Random sentinel (modelled; concrete value immaterial). -/
def oreVariantRandom : Int := -1

/-- MapID::MiningBeacon.  Modelled from the spec: MapObjectType.h is not among
the analysed sources; only distinctness of these MapID values is used. -/
def mapIDMiningBeacon : Int := 49

/-- MapID::MagmaVent (modelled; only distinctness is used). -/
def mapIDMagmaVent : Int := 50

/-- MapID::Fumarole (modelled; only distinctness is used). -/
def mapIDFumarole : Int := 51

/-- MapID::CargoTruck (modelled; only identity of the constant is used). -/
def mapIDCargoTruck : Int := 1

/-- MapID::Any, the wildcard unit-type filter.  Modelled from the spec:
MapObjectType.h is not among the analysed sources; the wildcard sentinel is
-1 as in the original game SDK (only equality with it is used). -/
def mapIDAny : Int := -1

/-- MapID::Tube (modelled; only identity of the constant is used). -/
def mapIDTube : Int := 44

/-- Game::CreateMine from API/Game.h: locally selects the MapID from the
MineType, pre-generates a random yield via GetRand(10) when a non-random
variant is requested with a random yield, looks up the internal variant
number, performs the thunk at 0x478940, and returns the player-6 beacon-list
head when the thunk reports success, else a default Unit. -/
def CreateMine (h : Host) (loc : Location) (type yield variant : Int) :
    GameUnit × List ExtOp :=
  let mapID := if type = mineTypeMagmaVent then mapIDMagmaVent
               else if type = mineTypeFumarole then mapIDFumarole
               else mapIDMiningBeacon
  let needRand := mapID = mapIDMiningBeacon ∧ yield = oreYieldRandom ∧ variant ≠ oreVariantRandom
  let randOps : List ExtOp := if needRand then [ExtOp.named opRand [.i 10]] else []
  let yield2 := if needRand then
      (let r := h.namedRet opRand [.i 10]
       if r ≤ 1 then oreYieldBar3 else if r ≤ 7 then oreYieldBar2 else oreYieldBar1)
    else yield
  let varNum := h.namedRet opGetVariantNum [.i yield2, .i variant]
  let args := [.i mapID, .i loc.x, .i loc.y, .i (max type mineTypeRandomOre), .i yield2, .i varNum]
  let tr := randOps ++ [ExtOp.named opGetVariantNum [.i yield2, .i variant], ExtOp.call 0x478940 args]
  if h.ret 0x478940 args ≠ 0 then
    (⟨h.namedRet opGetBeacons []⟩, tr ++ [ExtOp.named opGetBeacons []])
  else
    (nullUnit, tr)

/-! ## Game/TubeConnection.h -/

/-- TubeConnectionManager::CalculateAverageDIRTDamageProtection from
Game/TubeConnection.h: `return Thunk<0x42FF90, ...>(playerNum);`, a member
thunk receiving `this` (the manager's address) and `playerNum`. -/
def CalculateAverageDIRTDamageProtection (h : Host) (self playerNum : Int) :
    Int × List ExtOp :=
  (h.ret 0x42FF90 [.i self, .i playerNum], [ExtOp.call 0x42FF90 [.i self, .i playerNum]])

/-- TubeConnection::CalculateDIRTDamagePrevention from Game/TubeConnection.h:
`return Thunk<0x430050, ...>();`, a member thunk receiving only `this`. -/
def CalculateDIRTDamagePrevention (h : Host) (self : Int) : Int × List ExtOp :=
  (h.ret 0x430050 [.i self], [ExtOp.call 0x430050 [.i self]])

/-! ## API/GameMap.h -/

/-- Name of `MapImpl::Deinit` (Game/MapImpl.h is not among the analysed
sources; modelled from the spec as a delegated routine of the binding). -/
def opMapDeinit : String := "MapImpl.Deinit"

/-- Name of `MapImpl::LoadFromFile` (Game/MapImpl.h is not among the analysed
sources; modelled from the spec: map loading is delegated to the external
binary). -/
def opMapLoadFromFile : String := "MapImpl.LoadFromFile"

/-- Name of `TerrainManager::GetBulldozedTileIndex` (TerrainManager's header
is not among the analysed sources). -/
def opBulldozedIndex : String := "TerrainManager.GetBulldozedTileIndex"

/-- Name of `TerrainManager::GetScorchMarkTileIndex`. -/
def opScorchIndex : String := "TerrainManager.GetScorchMarkTileIndex"

/-- Name of `TerrainManager::GetCommonRubbleTileIndex`. -/
def opCommonRubbleIndex : String := "TerrainManager.GetCommonRubbleTileIndex"

/-- Name of `TerrainManager::GetRareRubbleTileIndex`. -/
def opRareRubbleIndex : String := "TerrainManager.GetRareRubbleTileIndex"

/-- GameMap::Load from API/GameMap.h:
`GetImpl()->Deinit();  return GetImpl()->LoadFromFile(filename.data());` —
deinitialize the current map, then delegate loading of `filename` to the
external binary and return its boolean result. -/
def GameMapLoad (h : Host) (filename : String) : Bool × List ExtOp :=
  (h.namedRet opMapLoadFromFile [.s filename] != 0,
   [ExtOp.named opMapDeinit [], ExtOp.named opMapLoadFromFile [.s filename]])

/-- The operation performed by GameMap::SetTile (thunk at 0x476D80 taking the
Location and the tile index). -/
def setTileOps (w : Location) (tileIndex : Int) : List ExtOp :=
  [ExtOp.call 0x476D80 [.i w.x, .i w.y, .i tileIndex]]

/-- The value returned by GameMap::GetTile (thunk at 0x476D00). -/
def getTileVal (h : Host) (w : Location) : Int :=
  h.ret 0x476D00 [.i w.x, .i w.y]

/-- The operation performed by GameMap::GetTile. -/
def getTileOps (w : Location) : List ExtOp :=
  [ExtOp.call 0x476D00 [.i w.x, .i w.y]]

/-- Result of a TerrainManager tile-index lookup `f(tile)`. -/
def terrainLookupVal (h : Host) (f : String) (tile : Int) : Int :=
  h.namedRet f [.i tile]

/-- The operation performed by a TerrainManager tile-index lookup. -/
def terrainLookupOps (f : String) (tile : Int) : List ExtOp :=
  [ExtOp.named f [.i tile]]

/-- GameMap::SetBulldozed from API/GameMap.h:
`SetTile(where, GetImpl()->pTerrainManager_->GetBulldozedTileIndex(GetTile(where)))`. -/
def SetBulldozed (h : Host) (w : Location) : List ExtOp :=
  getTileOps w ++ terrainLookupOps opBulldozedIndex (getTileVal h w)
    ++ setTileOps w (terrainLookupVal h opBulldozedIndex (getTileVal h w))

/-- GameMap::CreateScorchMark from API/GameMap.h. -/
def CreateScorchMark (h : Host) (w : Location) : List ExtOp :=
  getTileOps w ++ terrainLookupOps opScorchIndex (getTileVal h w)
    ++ setTileOps w (terrainLookupVal h opScorchIndex (getTileVal h w))

/-- GameMap::CreateCommonRubble from API/GameMap.h. -/
def CreateCommonRubble (h : Host) (w : Location) : List ExtOp :=
  getTileOps w ++ terrainLookupOps opCommonRubbleIndex (getTileVal h w)
    ++ setTileOps w (terrainLookupVal h opCommonRubbleIndex (getTileVal h w))

/-- GameMap::CreateRareRubble from API/GameMap.h. -/
def CreateRareRubble (h : Host) (w : Location) : List ExtOp :=
  getTileOps w ++ terrainLookupOps opRareRubbleIndex (getTileVal h w)
    ++ setTileOps w (terrainLookupVal h opRareRubbleIndex (getTileVal h w))

/-- GameMap::SetLavaFlowHelper from API/GameMap.h: four SetTile calls on the
tile and its (0,1), (1,0) and (1,1) offsets. -/
def SetLavaFlowHelper (w : Location) (topLeft topRight bottomLeft bottomRight : Int) :
    List ExtOp :=
  setTileOps w topLeft ++ setTileOps (w + ⟨0, 1⟩) topRight
    ++ setTileOps (w + ⟨1, 0⟩) bottomLeft ++ setTileOps (w + ⟨1, 1⟩) bottomRight

/-- GameMap::CreateLavaFlowSW from API/GameMap.h. -/
def CreateLavaFlowSW (w : Location) : List ExtOp := SetLavaFlowHelper w 0x447 0x45E 0x453 0x469

/-- GameMap::CreateLavaFlowS from API/GameMap.h:
`SetTile(where, 0x474);  SetTile(where + Location(0, 1), 0x47E);`. -/
def CreateLavaFlowS (w : Location) : List ExtOp :=
  setTileOps w 0x474 ++ setTileOps (w + ⟨0, 1⟩) 0x47E

/-- GameMap::CreateLavaFlowSE from API/GameMap.h. -/
def CreateLavaFlowSE (w : Location) : List ExtOp := SetLavaFlowHelper w 0x489 0x4A0 0x494 0x4AB

/-- GameMap::FreezeLavaFlowSW from API/GameMap.h. -/
def FreezeLavaFlowSW (w : Location) : List ExtOp := SetLavaFlowHelper w 0x44F 0x465 0x45A 0x470

/-- GameMap::FreezeLavaFlowS from API/GameMap.h. -/
def FreezeLavaFlowS (w : Location) : List ExtOp :=
  setTileOps w 0x47B ++ setTileOps (w + ⟨0, 1⟩) 0x486

/-- GameMap::FreezeLavaFlowSE from API/GameMap.h. -/
def FreezeLavaFlowSE (w : Location) : List ExtOp := SetLavaFlowHelper w 0x490 0x4A8 0x49C 0x4B2

/-- The composition the spec describes for the rubble/bulldoze conveniences:
the program `SetTile(where, f(GetTile(where)))` built from the primitive
accessors, for a TerrainManager lookup `f`. -/
def specTileCompose (h : Host) (f : String) (w : Location) : List ExtOp :=
  getTileOps w ++ terrainLookupOps f (getTileVal h w)
    ++ setTileOps w (terrainLookupVal h f (getTileVal h w))

/-- The explicit SetTile sequence the spec describes for a four-tile lava-flow
helper: constant indices `a`, `b`, `c`, `d` on the tile and its south, east
and south-east neighbours, in that order. -/
def specLavaQuad (w : Location) (a b c d : Int) : List ExtOp :=
  [ExtOp.call 0x476D80 [.i w.x, .i w.y, .i a],
   ExtOp.call 0x476D80 [.i w.x, .i (w.y + 1), .i b],
   ExtOp.call 0x476D80 [.i (w.x + 1), .i w.y, .i c],
   ExtOp.call 0x476D80 [.i (w.x + 1), .i (w.y + 1), .i d]]

/-- The explicit SetTile pair the spec describes for the two-tile lava-flow
helpers: constant indices `a` and `b` on the tile and its south neighbour. -/
def specLavaPair (w : Location) (a b : Int) : List ExtOp :=
  [ExtOp.call 0x476D80 [.i w.x, .i w.y, .i a],
   ExtOp.call 0x476D80 [.i w.x, .i (w.y + 1), .i b]]

/-! ## API/Trigger.h

Every trigger factory in Trigger.h performs a single OP2Thunk into a fixed
address and returns the Trigger the thunk returns.  The `ibool enabled` and
`ibool oneShot` flags always travel first, followed by the factory's
parameters and the trigger-function name. -/

/-- The empty string literal passed by CreateFailureCondition. -/
def noText : String := ""

/-- CreateVictoryCondition: thunk at 0x479930 with (enabled, oneShot,
condition, text). -/
def CreateVictoryCondition (h : Host) (condition : Trigger) (text : String)
    (oneShot enabled : Bool) : Trigger × List ExtOp :=
  (⟨h.ret 0x479930 [bi enabled, bi oneShot, .i condition.id, .s text]⟩,
   [ExtOp.call 0x479930 [bi enabled, bi oneShot, .i condition.id, .s text]])

/-- CreateFailureCondition: thunk at 0x479980 with (enabled, 0, condition, ""). -/
def CreateFailureCondition (h : Host) (condition : Trigger) (enabled : Bool) :
    Trigger × List ExtOp :=
  (⟨h.ret 0x479980 [bi enabled, .i 0, .i condition.id, .s noText]⟩,
   [ExtOp.call 0x479980 [bi enabled, .i 0, .i condition.id, .s noText]])

/-- CreateSetTrigger: variadic CDECL thunk at 0x4794E0 with (enabled, oneShot,
count, needed, triggerFunction, triggers...). -/
def CreateSetTrigger (h : Host) (triggerFunction : String) (needed : Int)
    (oneShot enabled : Bool) (triggers : List Trigger) : Trigger × List ExtOp :=
  (⟨h.ret 0x4794E0 ([bi enabled, bi oneShot, .i triggers.length, .i needed, .s triggerFunction]
      ++ triggers.map (fun t => .i t.id))⟩,
   [ExtOp.call 0x4794E0 ([bi enabled, bi oneShot, .i triggers.length, .i needed, .s triggerFunction]
      ++ triggers.map (fun t => .i t.id))])

/-- CreateLastOneStandingTrigger: thunk at 0x478F30 with (enabled, oneShot, fn). -/
def CreateLastOneStandingTrigger (h : Host) (triggerFunction : String)
    (oneShot enabled : Bool) : Trigger × List ExtOp :=
  (⟨h.ret 0x478F30 [bi enabled, bi oneShot, .s triggerFunction]⟩,
   [ExtOp.call 0x478F30 [bi enabled, bi oneShot, .s triggerFunction]])

/-- CreateSpaceRaceTrigger: thunk at 0x479260 with (enabled, oneShot,
playerNum, fn). -/
def CreateSpaceRaceTrigger (h : Host) (triggerFunction : String) (playerNum : Int)
    (oneShot enabled : Bool) : Trigger × List ExtOp :=
  (⟨h.ret 0x479260 [bi enabled, bi oneShot, .i playerNum, .s triggerFunction]⟩,
   [ExtOp.call 0x479260 [bi enabled, bi oneShot, .i playerNum, .s triggerFunction]])

/-- CreateMidasTrigger: thunk at 0x479300 with (enabled, oneShot, time, fn). -/
def CreateMidasTrigger (h : Host) (time : Int) (triggerFunction : String)
    (oneShot enabled : Bool) : Trigger × List ExtOp :=
  (⟨h.ret 0x479300 [bi enabled, bi oneShot, .i time, .s triggerFunction]⟩,
   [ExtOp.call 0x479300 [bi enabled, bi oneShot, .i time, .s triggerFunction]])

/-- CreateResourceTrigger: thunk at 0x478DE0 with (enabled, oneShot,
resourceType, refAmount, playerNum, compare, fn). -/
def CreateResourceTrigger (h : Host) (resourceType compare refAmount : Int)
    (triggerFunction : String) (playerNum : Int) (oneShot enabled : Bool) :
    Trigger × List ExtOp :=
  (⟨h.ret 0x478DE0 [bi enabled, bi oneShot, .i resourceType, .i refAmount, .i playerNum,
      .i compare, .s triggerFunction]⟩,
   [ExtOp.call 0x478DE0 [bi enabled, bi oneShot, .i resourceType, .i refAmount, .i playerNum,
      .i compare, .s triggerFunction]])

/-- CreateResearchTrigger: thunk at 0x478E90 with (enabled, oneShot, techID,
playerNum, fn). -/
def CreateResearchTrigger (h : Host) (techID : Int) (triggerFunction : String)
    (playerNum : Int) (oneShot enabled : Bool) : Trigger × List ExtOp :=
  (⟨h.ret 0x478E90 [bi enabled, bi oneShot, .i techID, .i playerNum, .s triggerFunction]⟩,
   [ExtOp.call 0x478E90 [bi enabled, bi oneShot, .i techID, .i playerNum, .s triggerFunction]])

/-- CreateKitTrigger: thunk at 0x4791C0 with (enabled, oneShot, playerNum,
structureKitType, refCount, fn). -/
def CreateKitTrigger (h : Host) (structureKitType refCount : Int)
    (triggerFunction : String) (playerNum : Int) (oneShot enabled : Bool) :
    Trigger × List ExtOp :=
  (⟨h.ret 0x4791C0 [bi enabled, bi oneShot, .i playerNum, .i structureKitType, .i refCount,
      .s triggerFunction]⟩,
   [ExtOp.call 0x4791C0 [bi enabled, bi oneShot, .i playerNum, .i structureKitType, .i refCount,
      .s triggerFunction]])

/-- CreateCountTrigger (unit/cargo overload): thunk at 0x479110 with (enabled,
oneShot, playerNum, unitType, cargoOrWeapon, refCount, compare, fn). -/
def CreateCountTrigger (h : Host) (unitType cargoOrWeapon compare refCount : Int)
    (triggerFunction : String) (playerNum : Int) (oneShot enabled : Bool) :
    Trigger × List ExtOp :=
  (⟨h.ret 0x479110 [bi enabled, bi oneShot, .i playerNum, .i unitType, .i cargoOrWeapon,
      .i refCount, .i compare, .s triggerFunction]⟩,
   [ExtOp.call 0x479110 [bi enabled, bi oneShot, .i playerNum, .i unitType, .i cargoOrWeapon,
      .i refCount, .i compare, .s triggerFunction]])

/-- CreateCountTrigger (Cargo Truck cargo overload): thunk at 0x479110 with
(enabled, oneShot, playerNum, MapID::CargoTruck, truckCargoType, refCount,
compare, fn). -/
def CreateCountTriggerTruckCargo (h : Host) (truckCargoType compare refCount : Int)
    (triggerFunction : String) (playerNum : Int) (oneShot enabled : Bool) :
    Trigger × List ExtOp :=
  (⟨h.ret 0x479110 [bi enabled, bi oneShot, .i playerNum, .i mapIDCargoTruck, .i truckCargoType,
      .i refCount, .i compare, .s triggerFunction]⟩,
   [ExtOp.call 0x479110 [bi enabled, bi oneShot, .i playerNum, .i mapIDCargoTruck,
      .i truckCargoType, .i refCount, .i compare, .s triggerFunction]])

/-- CreateOperationalTrigger: thunk at 0x479880 with (enabled, oneShot,
playerNum, structureType, refCount, compare, fn). -/
def CreateOperationalTrigger (h : Host) (structureType compare refCount playerNum : Int)
    (triggerFunction : String) (oneShot enabled : Bool) : Trigger × List ExtOp :=
  (⟨h.ret 0x479880 [bi enabled, bi oneShot, .i playerNum, .i structureType, .i refCount,
      .i compare, .s triggerFunction]⟩,
   [ExtOp.call 0x479880 [bi enabled, bi oneShot, .i playerNum, .i structureType, .i refCount,
      .i compare, .s triggerFunction]])

/-- CreateVehicleCountTrigger: thunk at 0x479440 with (enabled, oneShot,
playerNum, refCount, compare, fn). -/
def CreateVehicleCountTrigger (h : Host) (compare refCount : Int)
    (triggerFunction : String) (playerNum : Int) (oneShot enabled : Bool) :
    Trigger × List ExtOp :=
  (⟨h.ret 0x479440 [bi enabled, bi oneShot, .i playerNum, .i refCount, .i compare,
      .s triggerFunction]⟩,
   [ExtOp.call 0x479440 [bi enabled, bi oneShot, .i playerNum, .i refCount, .i compare,
      .s triggerFunction]])

/-- CreateBuildingCountTrigger: thunk at 0x4793A0 with (enabled, oneShot,
playerNum, refCount, compare, fn). -/
def CreateBuildingCountTrigger (h : Host) (compare refCount : Int)
    (triggerFunction : String) (playerNum : Int) (oneShot enabled : Bool) :
    Trigger × List ExtOp :=
  (⟨h.ret 0x4793A0 [bi enabled, bi oneShot, .i playerNum, .i refCount, .i compare,
      .s triggerFunction]⟩,
   [ExtOp.call 0x4793A0 [bi enabled, bi oneShot, .i playerNum, .i refCount, .i compare,
      .s triggerFunction]])

/-- CreateTimeTrigger (fixed-interval overload): thunk at 0x478D00 with
(enabled, oneShot, time, fn). -/
def CreateTimeTrigger (h : Host) (time : Int) (triggerFunction : String)
    (oneShot enabled : Bool) : Trigger × List ExtOp :=
  (⟨h.ret 0x478D00 [bi enabled, bi oneShot, .i time, .s triggerFunction]⟩,
   [ExtOp.call 0x478D00 [bi enabled, bi oneShot, .i time, .s triggerFunction]])

/-- CreateTimeTrigger (random-interval overload): thunk at 0x478DA0 with
(enabled, oneShot, timeMin, timeMax, fn). -/
def CreateTimeTriggerRange (h : Host) (timeMin timeMax : Int) (triggerFunction : String)
    (oneShot enabled : Bool) : Trigger × List ExtOp :=
  (⟨h.ret 0x478DA0 [bi enabled, bi oneShot, .i timeMin, .i timeMax, .s triggerFunction]⟩,
   [ExtOp.call 0x478DA0 [bi enabled, bi oneShot, .i timeMin, .i timeMax, .s triggerFunction]])

/-- CreateSpecialTarget: thunk at 0x4797A0 with (enabled, oneShot, targetUnit,
sourceUnitType, fn). -/
def CreateSpecialTarget (h : Host) (targetUnit : GameUnit) (sourceUnitType : Int)
    (triggerFunction : String) (oneShot enabled : Bool) : Trigger × List ExtOp :=
  (⟨h.ret 0x4797A0 [bi enabled, bi oneShot, .i targetUnit.id, .i sourceUnitType,
      .s triggerFunction]⟩,
   [ExtOp.call 0x4797A0 [bi enabled, bi oneShot, .i targetUnit.id, .i sourceUnitType,
      .s triggerFunction]])

/-- CreateAttackedTrigger: thunk at 0x4795A0 with (enabled, oneShot, group, fn). -/
def CreateAttackedTrigger (h : Host) (group : Int) (triggerFunction : String)
    (oneShot enabled : Bool) : Trigger × List ExtOp :=
  (⟨h.ret 0x4795A0 [bi enabled, bi oneShot, .i group, .s triggerFunction]⟩,
   [ExtOp.call 0x4795A0 [bi enabled, bi oneShot, .i group, .s triggerFunction]])

/-- CreateDamagedTrigger: thunk at 0x479640 with (enabled, oneShot, group,
damage, fn). -/
def CreateDamagedTrigger (h : Host) (group damage : Int) (triggerFunction : String)
    (oneShot enabled : Bool) : Trigger × List ExtOp :=
  (⟨h.ret 0x479640 [bi enabled, bi oneShot, .i group, .i damage, .s triggerFunction]⟩,
   [ExtOp.call 0x479640 [bi enabled, bi oneShot, .i group, .i damage, .s triggerFunction]])

/-- CreatePointTrigger: thunk at 0x479070 with (enabled, oneShot, playerNum,
x, y, fn). -/
def CreatePointTrigger (h : Host) (w : Location) (triggerFunction : String)
    (playerNum : Int) (oneShot enabled : Bool) : Trigger × List ExtOp :=
  (⟨h.ret 0x479070 [bi enabled, bi oneShot, .i playerNum, .i w.x, .i w.y, .s triggerFunction]⟩,
   [ExtOp.call 0x479070 [bi enabled, bi oneShot, .i playerNum, .i w.x, .i w.y,
      .s triggerFunction]])

/-- CreateRectTrigger: thunk at 0x478FC0 with (enabled, oneShot, playerNum,
area.x1, area.x2, area.Width(), area.Height(), fn) — exactly the argument
list the source passes. -/
def CreateRectTrigger (h : Host) (area : MapRect) (triggerFunction : String)
    (playerNum : Int) (oneShot enabled : Bool) : Trigger × List ExtOp :=
  (⟨h.ret 0x478FC0 [bi enabled, bi oneShot, .i playerNum, .i area.x1, .i area.x2,
      .i area.Width, .i area.Height, .s triggerFunction]⟩,
   [ExtOp.call 0x478FC0 [bi enabled, bi oneShot, .i playerNum, .i area.x1, .i area.x2,
      .i area.Width, .i area.Height, .s triggerFunction]])

/-- CreateEscapeTrigger: thunk at 0x4796E0 with (enabled, oneShot, playerNum,
area.x1, area.y1, area.Width(), area.Height(), refCount, unitType, cargoType,
cargoAmount, fn). -/
def CreateEscapeTrigger (h : Host) (area : MapRect) (unitType refCount cargoType cargoAmount : Int)
    (triggerFunction : String) (playerNum : Int) (oneShot enabled : Bool) :
    Trigger × List ExtOp :=
  (⟨h.ret 0x4796E0 [bi enabled, bi oneShot, .i playerNum, .i area.x1, .i area.y1,
      .i area.Width, .i area.Height, .i refCount, .i unitType, .i cargoType, .i cargoAmount,
      .s triggerFunction]⟩,
   [ExtOp.call 0x4796E0 [bi enabled, bi oneShot, .i playerNum, .i area.x1, .i area.y1,
      .i area.Width, .i area.Height, .i refCount, .i unitType, .i cargoType, .i cargoAmount,
      .s triggerFunction]])

/-- A factory result delegates fully when its trace is exactly one thunk into
the fixed address `addr` with argument list `args` and its value is the
Trigger that very call returns. -/
def IsSingleThunk (h : Host) (addr : Nat) (args : List Val) (r : Trigger × List ExtOp) : Prop :=
  r.2 = [ExtOp.call addr args] ∧ r.1.id = h.ret addr args

/-! ## API/Enumerators.h

The player unit lists are owned and mutated by the external binary; the
binding layer only follows their `pPlayerNext_` links.  We model the binary's
heap of map objects as read-only functions: `next` gives a map object's
`pPlayerNext_` link, `typeId` its `GetTypeID()`, and the three `*Head`
functions each player's `pVehicleList_` / `pBuildingList_` / `pEntityList_`
head pointers (Player.h and MapObj.h are not among the analysed sources; the
spec describes them as binary-owned lists the binding only reads).  Map
objects are identified by their address.  All iterator functions below take
the heap as an immutable argument and return only the visited objects, so
the underlying list is unmodified by construction. -/

structure Heap where
  next         : Nat → Option Nat
  typeId       : Nat → Int
  vehicleHead  : Int → Option Nat
  buildingHead : Int → Option Nat
  entityHead   : Int → Option Nat

/-- `Chain hp cur l` states that following `pPlayerNext_` links from `cur`
reaches the null pointer and visits exactly the map objects `l`, in order —
i.e. the binary-owned list is finite and null-terminated. -/
inductive Chain (hp : Heap) : Option Nat → List Nat → Prop
  | nil : Chain hp none []
  | cons {p : Nat} {rest : Option Nat} {l : List Nat} :
      hp.next p = rest → Chain hp rest l → Chain hp (some p) (p :: l)

/-- The skip loop of FilterPlayerUnitIterator (both the constructor's
conditional pre-skip and `operator++`'s do-while collapse to this): advance
past map objects whose `GetTypeID()` differs from the filter type, stopping
at the first match or at null.  `fuel` bounds the number of nodes inspected
(at least the chain length, by hypothesis in the theorems). -/
def skipMismatch (hp : Heap) (type : Int) : Nat → Option Nat → Option Nat
  | _, none => none
  | 0, some _ => none
  | fuel + 1, some p =>
      if hp.typeId p = type then some p else skipMismatch hp type fuel (hp.next p)

/-- The iterator produced by `begin()`: the constructor
`FilterPlayerUnitIterator(cache, pMo, type)` pre-skips non-matching nodes
unless the filter is MapID::Any. -/
def iterBegin (hp : Heap) (type : Int) (fuel : Nat) (head : Option Nat) : Option Nat :=
  if type = mapIDAny then head else skipMismatch hp type fuel head

/-- FilterPlayerUnitIterator::operator++: PlayerUnitIterator::operator++
(follow `pPlayerNext_`) once when the filter is MapID::Any, else the do-while
that keeps advancing over non-matching nodes. -/
def iterNext (hp : Heap) (type : Int) (fuel : Nat) : Option Nat → Option Nat
  | none => none
  | some p => if type = mapIDAny then hp.next p else skipMismatch hp type fuel (hp.next p)

/-- Iterating from `cur` to `end()` (whose `pMo_` is null), yielding `*it`
(the map object wrapped into a Unit) before each `++it`. -/
def collect (hp : Heap) (type : Int) : Nat → Option Nat → List Nat
  | _, none => []
  | 0, some _ => []
  | fuel + 1, some p => p :: collect hp type fuel (iterNext hp type fuel (some p))

/-- The full enumeration: iterate from `begin()` until `end()`. -/
def enumToList (hp : Heap) (type : Int) (fuel : Nat) (head : Option Nat) : List Nat :=
  collect hp type fuel (iterBegin hp type fuel head)

/-- Iterating PlayerVehicleEnum for a player: `begin()` starts at the
player's `pVehicleList_` head. -/
def PlayerVehicleEnumList (hp : Heap) (playerNum type : Int) (fuel : Nat) : List Nat :=
  enumToList hp type fuel (hp.vehicleHead playerNum)

/-- Iterating PlayerBuildingEnum for a player: `begin()` starts at the
player's `pBuildingList_` head. -/
def PlayerBuildingEnumList (hp : Heap) (playerNum type : Int) (fuel : Nat) : List Nat :=
  enumToList hp type fuel (hp.buildingHead playerNum)

/-- Iterating PlayerEntityEnum for a player: `begin()` starts at the player's
`pEntityList_` head. -/
def PlayerEntityEnumList (hp : Heap) (playerNum type : Int) (fuel : Nat) : List Nat :=
  enumToList hp type fuel (hp.entityHead playerNum)

/-- The enumeration the claim describes: all reachable units when the filter
is MapID::Any, else exactly those whose type ID equals the filter, in list
order. -/
def chainUnits (hp : Heap) (type : Int) (l : List Nat) : List Nat :=
  if type = mapIDAny then l else l.filter (fun p => hp.typeId p = type)

/-! ## Supporting lemmas for the enumerator claim -/

theorem length_dropWhile_le (p : Nat → Bool) :
    ∀ l : List Nat, (l.dropWhile p).length ≤ l.length := by
  intro l
  induction l with
  | nil => simp [List.dropWhile]
  | cons a t ih =>
    by_cases hpa : p a
    · rw [List.dropWhile_cons_of_pos hpa]
      exact Nat.le_trans ih (Nat.le_succ _)
    · rw [List.dropWhile_cons_of_neg hpa]

theorem head_dropWhile_false (p : Nat → Bool) :
    ∀ (l : List Nat) (q : Nat) (t : List Nat), l.dropWhile p = q :: t → p q = false := by
  intro l
  induction l with
  | nil => intro q t hq; simp [List.dropWhile] at hq
  | cons a l2 ih =>
    intro q t hq
    by_cases hpa : p a
    · rw [List.dropWhile_cons_of_pos hpa] at hq
      exact ih q t hq
    · rw [List.dropWhile_cons_of_neg hpa] at hq
      cases hq
      exact Bool.of_not_eq_true hpa

theorem filter_dropWhile_not (p : Nat → Bool) :
    ∀ l : List Nat, (l.dropWhile (fun q => !p q)).filter p = l.filter p := by
  intro l
  induction l with
  | nil => simp
  | cons a t ih =>
    by_cases hpa : p a
    · rw [List.dropWhile_cons_of_neg (by simp [hpa])]
    · rw [List.dropWhile_cons_of_pos (by simp [hpa]), ih,
        List.filter_cons_of_neg (by simp [hpa])]

theorem skipMismatch_none (hp : Heap) (type : Int) :
    ∀ fuel, skipMismatch hp type fuel none = none := by
  intro fuel; cases fuel <;> rfl

theorem chain_nil_elim (hp : Heap) {cur : Option Nat} (hc : Chain hp cur []) : cur = none := by
  cases hc; rfl

/-- The skip loop lands on the chain suffix that drops every leading
non-matching node. -/
theorem skip_chain (hp : Heap) (type : Int) :
    ∀ (l : List Nat) (cur : Option Nat) (fuel : Nat), Chain hp cur l → l.length ≤ fuel →
      Chain hp (skipMismatch hp type fuel cur)
        (l.dropWhile (fun q => !(hp.typeId q == type))) := by
  intro l
  induction l with
  | nil =>
    intro cur fuel hc _
    rw [chain_nil_elim hp hc, skipMismatch_none]
    exact Chain.nil
  | cons p l2 ih =>
    intro cur fuel hc hlen
    cases hc with
    | cons hnext hrest =>
      cases fuel with
      | zero => exact absurd hlen (by simp)
      | succ f =>
        by_cases ht : hp.typeId p = type
        · rw [List.dropWhile_cons_of_neg (by simp [ht])]
          simpa [skipMismatch, ht] using Chain.cons hnext hrest
        · rw [List.dropWhile_cons_of_pos (by simp [ht])]
          have : skipMismatch hp type (f + 1) (some p) = skipMismatch hp type f (hp.next p) := by
            simp [skipMismatch, ht]
          rw [this, hnext]
          exact ih _ f hrest (Nat.succ_le_succ_iff.mp (by simpa using hlen))

/-- Collecting with the MapID::Any filter visits the whole chain. -/
theorem collect_any (hp : Heap) :
    ∀ (fuel : Nat) (l : List Nat) (cur : Option Nat), Chain hp cur l → l.length ≤ fuel →
      collect hp mapIDAny fuel cur = l := by
  intro fuel
  induction fuel with
  | zero =>
    intro l cur hc hlen
    have hl : l = [] := List.length_eq_zero.mp (Nat.le_zero.mp hlen)
    subst hl
    rw [chain_nil_elim hp hc]
    rfl
  | succ f ih =>
    intro l cur hc hlen
    cases hc with
    | nil => rfl
    | @cons p rest l2 hnext hrest =>
      have : collect hp mapIDAny (f + 1) (some p)
          = p :: collect hp mapIDAny f (hp.next p) := by
        simp [collect, iterNext]
      rw [this, hnext, ih l2 rest hrest (Nat.succ_le_succ_iff.mp (by simpa using hlen))]

/-- Collecting with a concrete type filter from a position whose head (if
any) matches the filter yields the filtered chain. -/
theorem collect_typed (hp : Heap) (type : Int) (hne : type ≠ mapIDAny) :
    ∀ (fuel : Nat) (l : List Nat) (cur : Option Nat), Chain hp cur l → l.length ≤ fuel →
      (∀ q t, l = q :: t → hp.typeId q = type) →
      collect hp type fuel cur = l.filter (fun q => hp.typeId q == type) := by
  intro fuel
  induction fuel with
  | zero =>
    intro l cur hc hlen _
    have hl : l = [] := List.length_eq_zero.mp (Nat.le_zero.mp hlen)
    subst hl
    rw [chain_nil_elim hp hc]
    rfl
  | succ f ih =>
    intro l cur hc hlen hhead
    cases hc with
    | nil => rfl
    | @cons p rest l2 hnext hrest =>
      have htp : hp.typeId p = type := hhead p l2 rfl
      have hstep : collect hp type (f + 1) (some p)
          = p :: collect hp type f (skipMismatch hp type f (hp.next p)) := by
        simp [collect, iterNext, hne]
      have hlen2 : l2.length ≤ f := Nat.succ_le_succ_iff.mp (by simpa using hlen)
      have hchain2 : Chain hp (hp.next p) l2 := by rw [hnext]; exact hrest
      have hskip := skip_chain hp type l2 (hp.next p) f hchain2 hlen2
      have hrec := ih (l2.dropWhile (fun q => !(hp.typeId q == type)))
        (skipMismatch hp type f (hp.next p)) hskip
        (Nat.le_trans (length_dropWhile_le _ l2) hlen2)
        (by
          intro q t hq
          have := head_dropWhile_false (fun q => !(hp.typeId q == type)) l2 q t hq
          simpa using this)
      rw [hstep, hrec, List.filter_cons_of_pos (by simp [htp]),
        filter_dropWhile_not (fun q => hp.typeId q == type) l2]

/-- The enumerator semantics: iterating from `begin()` to `end()` yields the
whole chain under MapID::Any and the type-filtered chain otherwise. -/
theorem enum_spec (hp : Heap) (type : Int) (fuel : Nat) (head : Option Nat) (l : List Nat)
    (hc : Chain hp head l) (hlen : l.length ≤ fuel) :
    enumToList hp type fuel head = chainUnits hp type l := by
  by_cases hany : type = mapIDAny
  · subst hany
    unfold enumToList iterBegin chainUnits
    simp only [if_pos rfl]
    exact collect_any hp fuel l head hc hlen
  · unfold enumToList iterBegin chainUnits
    rw [if_neg hany, if_neg hany]
    have hskip := skip_chain hp type l head fuel hc hlen
    have := collect_typed hp type hany fuel (l.dropWhile (fun q => !(hp.typeId q == type)))
      (skipMismatch hp type fuel head) hskip
      (Nat.le_trans (length_dropWhile_le _ l) hlen)
      (by
        intro q t hq
        have := head_dropWhile_false (fun q => !(hp.typeId q == type)) l q t hq
        simpa using this)
    rw [this, filter_dropWhile_not (fun q => hp.typeId q == type) l]
    have hfun : (fun q : Nat => hp.typeId q == type)
        = (fun q : Nat => decide (hp.typeId q = type)) := by
      funext q
      by_cases hq : hp.typeId q = type <;> simp [hq]
    rw [hfun]

/-! ## Supporting lemmas for the bit-utility claims -/

theorem tzcnt_zero : ∀ w, tzcnt w 0 = w := by
  intro w
  induction w with
  | zero => rfl
  | succ v ih => simp [tzcnt, ih]; omega

/-- `tzcnt` of a nonzero `w`-bit word is the index of its least-significant
set bit: that bit is set and all lower bits are clear. -/
theorem tzcnt_spec :
    ∀ (w m : Nat), m ≠ 0 → m < 2 ^ w →
      m.testBit (tzcnt w m) = true ∧ ∀ j, j < tzcnt w m → m.testBit j = false := by
  intro w
  induction w with
  | zero =>
    intro m h0 hlt
    exact absurd (Nat.lt_one_iff.mp (by simpa using hlt)) h0
  | succ v ih =>
    intro m h0 hlt
    by_cases hodd : m % 2 = 1
    · refine ⟨?_, ?_⟩
      · simp [tzcnt, hodd, Nat.testBit_zero]
      · intro j hj
        simp [tzcnt, hodd] at hj
    · have heven : m % 2 = 0 := Nat.mod_two_eq_zero_or_one m |>.resolve_right hodd
      have hhalf0 : m / 2 ≠ 0 := by
        intro hz
        have := Nat.div_add_mod m 2
        rw [hz, heven] at this
        simp at this
        exact h0 this.symm
      have hhalflt : m / 2 < 2 ^ v := by
        have h2 : m < 2 ^ v * 2 := by
          calc m < 2 ^ (v + 1) := hlt
          _ = 2 ^ v * 2 := by rw [Nat.pow_succ]
        exact Nat.div_lt_of_lt_mul (by omega)
      obtain ⟨ih1, ih2⟩ := ih (m / 2) hhalf0 hhalflt
      have hstep : tzcnt (v + 1) m = 1 + tzcnt v (m / 2) := by
        simp [tzcnt, hodd]
      refine ⟨?_, ?_⟩
      · rw [hstep, Nat.add_comm, Nat.testBit_succ]
        exact ih1
      · intro j hj
        match j with
        | 0 => simp [Nat.testBit_zero, heven]
        | j' + 1 =>
          rw [Nat.testBit_succ]
          exact ih2 j' (by omega)

/-- The portable scan loop adds the trailing-zero count to its accumulator. -/
theorem scanLoop_eq_tzcnt : ∀ (fuel m index : Nat), scanLoop fuel m index = index + tzcnt fuel m := by
  intro fuel
  induction fuel with
  | zero => intro m index; rfl
  | succ f ih =>
    intro m index
    by_cases heven : m % 2 = 0
    · have hodd : ¬(m % 2 = 1) := by omega
      simp [scanLoop, heven, tzcnt, hodd, ih]
      omega
    · have hodd : m % 2 = 1 := by omega
      simp [scanLoop, heven, tzcnt, hodd]

/-! ## Concrete oracles for witnesses and counterexamples -/

/-- A concrete host oracle: every thunk returns 1, every out-parameter gets
42, every repository-external routine returns 0, and no unit is a vehicle. -/
def host0 : Host where
  ret := fun _ _ => 1
  out := fun _ _ => 42
  namedRet := fun _ _ => 0
  isVehicle := fun _ => false

/-- A concrete three-node heap: the chain 0 → 1 → 2 → null, where objects 0
and 2 have type id 5 and object 1 has type id 7; every player list head
points at object 0. -/
def wHeap : Heap where
  next := fun p => if p = 0 then some 1 else if p = 1 then some 2 else none
  typeId := fun p => if p = 1 then 7 else 5
  vehicleHead := fun _ => some 0
  buildingHead := fun _ => some 0
  entityHead := fun _ => some 0

example : PlayerVehicleEnumList wHeap 0 5 9 = [0, 2] := by decide
example : PlayerVehicleEnumList wHeap 0 mapIDAny 9 = [0, 1, 2] := by decide

/-! ## Claim theorems -/

/-- C2: every call to Game::CreateUnit reaches the external binary through
the thunk at fixed address 0x478780, forwarding the type, location, owner
number, weapon/cargo and rotation arguments (in the source's order), and the
Unit it returns is exactly the one the external call produced through its
`Unit&` out-parameter.  The optional `DoSetLights` follow-up acts on that
same unit and never changes which unit is returned. -/
theorem claim2_createUnit : ∀ (h : Host) (type : Int) (w : Location)
    (ownerNum weaponCargo rotation : Int) (lightsOn : Bool),
    ((CreateUnit h type w ownerNum weaponCargo rotation lightsOn).2.head?
      = some (ExtOp.call 0x478780 (createUnitArgs type w ownerNum weaponCargo rotation)))
    ∧ ((CreateUnit h type w ownerNum weaponCargo rotation lightsOn).1
      = ⟨h.out 0x478780 (createUnitArgs type w ownerNum weaponCargo rotation)⟩)
    ∧ (ExtOp.call 0x478780 (createUnitArgs type w ownerNum weaponCargo rotation)
      ∈ (CreateUnit h type w ownerNum weaponCargo rotation lightsOn).2) := by
  intro h type w ownerNum weaponCargo rotation lightsOn
  by_cases hv : (h.isVehicle (h.out 0x478780 (createUnitArgs type w ownerNum weaponCargo rotation))
      && lightsOn) = true
  · simp [CreateUnit, hv]
  · simp [CreateUnit, hv]

/-- C4: tube-network damage mitigation is fully delegated:
TubeConnectionManager::CalculateAverageDIRTDamageProtection(playerNum) is
exactly one thunk into 0x42FF90 (receiving `this` and `playerNum`) whose
return value is passed back unchanged, and
TubeConnection::CalculateDIRTDamagePrevention() is exactly one thunk into
0x430050 (receiving `this`) whose return value is passed back unchanged. -/
theorem claim4_tubeDirt : ∀ (h : Host) (mgr conn playerNum : Int),
    ((CalculateAverageDIRTDamageProtection h mgr playerNum).2
      = [ExtOp.call 0x42FF90 [.i mgr, .i playerNum]])
    ∧ ((CalculateAverageDIRTDamageProtection h mgr playerNum).1
      = h.ret 0x42FF90 [.i mgr, .i playerNum])
    ∧ ((CalculateDIRTDamagePrevention h conn).2 = [ExtOp.call 0x430050 [.i conn]])
    ∧ ((CalculateDIRTDamagePrevention h conn).1 = h.ret 0x430050 [.i conn]) :=
  fun _ _ _ _ => ⟨rfl, rfl, rfl, rfl⟩

/-- C5: GameMap::Load(filename) parses no file content locally: for every
filename its external interaction is exactly `MapImpl::Deinit` on the current
map followed by the external binary's `MapImpl::LoadFromFile` on the
filename, and its boolean result is that call's result. -/
theorem claim5_mapLoad : ∀ (h : Host) (filename : String),
    ((GameMapLoad h filename).2
      = [ExtOp.named opMapDeinit [], ExtOp.named opMapLoadFromFile [.s filename]])
    ∧ ((GameMapLoad h filename).1 = (h.namedRet opMapLoadFromFile [.s filename] != 0)) :=
  fun _ _ => ⟨rfl, rfl⟩

/-- C8: Game::CreateWreckage with techID strictly below 8000 or strictly
above 12095 returns a default (null) Unit and performs no external operation
at all; the external wreckage-creation thunk at 0x4789F0 appears in its trace
exactly when 8000 ≤ techID ≤ 12095. -/
theorem claim8_wreckageGate : ∀ (h : Host) (w : Location) (techID : Int) (d : Bool),
    ((techID < 8000 ∨ 12095 < techID) →
      ((CreateWreckage h w techID d).1 = nullUnit ∧ (CreateWreckage h w techID d).2 = []))
    ∧ ((ExtOp.call 0x4789F0 (wreckArgs w techID d) ∈ (CreateWreckage h w techID d).2)
      ↔ (8000 ≤ techID ∧ techID ≤ 12095)) := by
  intro h w t d
  by_cases hr : 8000 ≤ t ∧ t ≤ 12095
  · refine ⟨fun hout => absurd hr (by omega), ?_⟩
    unfold CreateWreckage
    rw [if_pos hr]
    split <;> simpa using hr
  · refine ⟨fun _ => ?_, ?_⟩
    · unfold CreateWreckage
      rw [if_neg hr]
      exact ⟨rfl, rfl⟩
    · unfold CreateWreckage
      rw [if_neg hr]
      simpa using hr

/-- Witness for C8 at the concrete out-of-range input techID = 7. -/
theorem claim8_witness :
    ((7 : Int) < 8000 ∨ (12095 : Int) < 7)
    ∧ (CreateWreckage host0 ⟨1, 2⟩ 7 true).1 = nullUnit
    ∧ (CreateWreckage host0 ⟨1, 2⟩ 7 true).2 = [] := by
  have h7 : (7 : Int) < 8000 ∨ (12095 : Int) < 7 := Or.inl (by decide)
  obtain ⟨h1, h2⟩ := (claim8_wreckageGate host0 ⟨1, 2⟩ 7 true).1 h7
  exact ⟨h7, h1, h2⟩

/-- Per-bit behaviour of SetBitFlag: exactly the bits of `flag` are forced
to the `setOn` value, all other bits keep their value from `out`. -/
theorem setBitFlag_testBit (out flag : Nat) (setOn : Bool) (i : Nat) :
    (SetBitFlag out flag setOn).testBit i
      = (if flag.testBit i then setOn else out.testBit i) := by
  cases setOn <;>
    simp only [SetBitFlag, Bool.false_eq_true, if_false, if_true] <;>
    simp only [Nat.testBit_xor, Nat.testBit_and, Nat.zero_testBit] <;>
    cases hf : flag.testBit i <;> cases ho : out.testBit i <;> simp

/-- C9: SetBitFlag(out, flag, on) yields `out | flag` when `on` is true and
`out & ~flag` when `on` is false (stated bitwise: exactly the bits of `flag`
are forced to `on`), and every bit of `out` outside `flag` is unchanged. -/
theorem claim9_setBitFlag : ∀ (out flag : Nat) (setOn : Bool),
    SetBitFlag out flag true = out ||| flag
    ∧ (∀ i, (SetBitFlag out flag false).testBit i = (out.testBit i && !flag.testBit i))
    ∧ (∀ i, (SetBitFlag out flag setOn).testBit i
        = (if flag.testBit i then setOn else out.testBit i)) := by
  intro out flag setOn
  refine ⟨?_, ?_, fun i => setBitFlag_testBit out flag setOn i⟩
  · apply Nat.eq_of_testBit_eq
    intro i
    rw [setBitFlag_testBit, Nat.testBit_or]
    cases hf : flag.testBit i <;> cases ho : out.testBit i <;> simp
  · intro i
    rw [setBitFlag_testBit]
    cases hf : flag.testBit i <;> cases ho : out.testBit i <;> simp

/-- C10, counterexample: on the Win32/x86 branch (the primary build target),
GetNextBit with mask = 0 and previous index 7 returns false but stores 32
into `*pIndex` (the `_tzcnt_u32` result for a zero operand) instead of
leaving it unchanged, refuting the claim that a zero mask leaves `*pIndex`
unchanged. -/
theorem claim10_counterexample :
    (GetNextBit 7 0).1 = false ∧ (GetNextBit 7 0).2 = 32 ∧ (GetNextBit 7 0).2 ≠ 7 := by
  decide

/-- C10, amended: GetNextBit returns true iff the mask is nonzero; when the
mask is nonzero it stores the index of the least-significant set bit (the
trailing-zero count); when the mask is zero the Win32/x86 branch stores 32
(the tzcnt of a zero 32-bit operand), while only the last-resort portable
branch leaves `*pIndex` unchanged — on a nonzero mask both branches agree. -/
theorem claim10_amended : ∀ (pIndex mask : Nat), mask < 2 ^ 32 →
    ((GetNextBit pIndex mask).1 = (mask != 0)
      ∧ (mask ≠ 0 → Nat.testBit mask (GetNextBit pIndex mask).2 = true
          ∧ ∀ j, j < (GetNextBit pIndex mask).2 → Nat.testBit mask j = false)
      ∧ (mask = 0 → (GetNextBit pIndex mask).2 = 32))
    ∧ ((GetNextBitPortable pIndex mask).1 = (mask != 0)
      ∧ (mask = 0 → (GetNextBitPortable pIndex mask).2 = pIndex)
      ∧ (mask ≠ 0 → (GetNextBitPortable pIndex mask).2 = (GetNextBit pIndex mask).2)) := by
  intro pIndex mask hlt
  refine ⟨⟨rfl, ?_, ?_⟩, ?_, ?_, ?_⟩
  · intro h0
    exact tzcnt_spec 32 mask h0 hlt
  · intro h0
    subst h0
    exact tzcnt_zero 32
  · by_cases h0 : mask = 0
    · subst h0; rfl
    · simp [GetNextBitPortable, h0]
  · intro h0
    simp [GetNextBitPortable, h0]
  · intro h0
    rw [GetNextBitPortable, if_neg h0]
    show scanLoop 32 mask 0 = tzcnt 32 mask
    rw [scanLoop_eq_tzcnt]
    omega

/-- Witness for C10's amended theorem at pIndex = 7, mask = 12 = 0b1100: the
hypothesis mask < 2^32 and the inner nonzero-mask hypotheses are discharged
concretely, giving that bit (GetNextBit 7 12).2 of 12 is set. -/
theorem claim10_witness :
    (12 : Nat) < 2 ^ 32 ∧ (12 : Nat) ≠ 0
    ∧ Nat.testBit 12 (GetNextBit 7 12).2 = true :=
  ⟨by norm_num, by decide, (((claim10_amended 7 12 (by norm_num)).1.2.1) (by decide)).1⟩

/-- C1, counterexample: the claim that every public method of every component
class is (per invocation) one struct-field access at a fixed offset or one
thunk into a fixed host address fails at Game::CreateWreckage with the
out-of-range techID 7: that invocation performs zero external operations
(its trace is empty, so it is neither a field access nor a thunk call) and
returns a locally constructed default Unit — behaviour implemented locally. -/
theorem claim1_counterexample :
    (CreateWreckage host0 ⟨3, 4⟩ 7 false).2 = []
    ∧ (CreateWreckage host0 ⟨3, 4⟩ 7 false).1 = nullUnit
    ∧ (CreateWreckage host0 ⟨3, 4⟩ 7 false).2.length ≠ 1 := by
  decide

/-- C1, amended: methods of the component classes are built from fixed-offset
field accesses and fixed-address thunks, but some add thin local glue logic
rather than being a single such operation: CreateWreckage performs its thunk
(always as its first operation) exactly when 8000 ≤ techID ≤ 12095 and
otherwise performs no external operation; CreateMine locally selects the
MapID and clamps the mine type before its thunk at 0x478940 (shown for
MineType::MagmaVent, which is translated locally to the MagmaVent MapID and
the RandomOre clamp); while e.g.
TubeConnectionManager::CalculateAverageDIRTDamageProtection is exactly one
thunk and Game::CreateUnit leads with its single creation thunk. -/
theorem claim1_amended : ∀ (h : Host) (w loc : Location) (techID : Int) (d : Bool)
    (type owner wc rot : Int) (lightsOn : Bool) (self pn yield variant : Int),
    (((CreateWreckage h w techID d).2 = []) ↔ ¬(8000 ≤ techID ∧ techID ≤ 12095))
    ∧ (((CreateWreckage h w techID d).2.head?
        = some (ExtOp.call 0x4789F0 (wreckArgs w techID d)))
      ↔ (8000 ≤ techID ∧ techID ≤ 12095))
    ∧ ((CalculateAverageDIRTDamageProtection h self pn).2
      = [ExtOp.call 0x42FF90 [.i self, .i pn]])
    ∧ ((CreateUnit h type loc owner wc rot lightsOn).2.head?
      = some (ExtOp.call 0x478780 (createUnitArgs type loc owner wc rot)))
    ∧ (ExtOp.call 0x478940 [.i mapIDMagmaVent, .i loc.x, .i loc.y, .i mineTypeRandomOre,
        .i yield, .i (h.namedRet opGetVariantNum [.i yield, .i variant])]
      ∈ (CreateMine h loc mineTypeMagmaVent yield variant).2) := by
  intro h w loc techID d type owner wc rot lightsOn self pn yield variant
  refine ⟨?_, ?_, rfl, ?_, ?_⟩
  · by_cases hr : 8000 ≤ techID ∧ techID ≤ 12095
    · unfold CreateWreckage
      rw [if_pos hr]
      split <;> simpa using hr
    · unfold CreateWreckage
      rw [if_neg hr]
      simpa using hr
  · by_cases hr : 8000 ≤ techID ∧ techID ≤ 12095
    · unfold CreateWreckage
      rw [if_pos hr]
      split <;> simpa using hr
    · unfold CreateWreckage
      rw [if_neg hr]
      simpa using hr
  · by_cases hv : (h.isVehicle (h.out 0x478780 (createUnitArgs type loc owner wc rot))
        && lightsOn) = true
    · simp [CreateUnit, hv]
    · simp [CreateUnit, hv]
  · unfold CreateMine
    simp only [mineTypeMagmaVent, mineTypeFumarole, mapIDMagmaVent, mapIDMiningBeacon,
      mineTypeRandomOre]
    norm_num
    split <;> simp

/-- C6: iterating PlayerVehicleEnum, PlayerBuildingEnum or PlayerEntityEnum
for a player yields exactly the units reachable from that player's
binary-owned list head (pVehicleList_, pBuildingList_, pEntityList_
respectively) by following pPlayerNext_ links, restricted to those whose
type ID equals the filter type (all reachable units when the filter is
MapID::Any), in list order; the iterators only read the heap, so the
underlying list is unmodified. -/
theorem claim6_playerEnums : ∀ (hp : Heap) (playerNum type : Int) (fuel : Nat) (l : List Nat),
    (Chain hp (hp.vehicleHead playerNum) l → l.length ≤ fuel →
      PlayerVehicleEnumList hp playerNum type fuel = chainUnits hp type l)
    ∧ (Chain hp (hp.buildingHead playerNum) l → l.length ≤ fuel →
      PlayerBuildingEnumList hp playerNum type fuel = chainUnits hp type l)
    ∧ (Chain hp (hp.entityHead playerNum) l → l.length ≤ fuel →
      PlayerEntityEnumList hp playerNum type fuel = chainUnits hp type l) := by
  intro hp playerNum type fuel l
  exact ⟨fun hc hl => enum_spec hp type fuel _ l hc hl,
    fun hc hl => enum_spec hp type fuel _ l hc hl,
    fun hc hl => enum_spec hp type fuel _ l hc hl⟩

/-- Witness for C6 on the concrete heap wHeap (chain 0 → 1 → 2, type ids
5, 7, 5) with filter type 5 and fuel 9: the enumeration yields the filtered
chain [0, 2]. -/
theorem claim6_witness :
    Chain wHeap (wHeap.vehicleHead 0) [0, 1, 2] ∧ ([0, 1, 2] : List Nat).length ≤ 9
    ∧ PlayerVehicleEnumList wHeap 0 5 9 = chainUnits wHeap 5 [0, 1, 2] := by
  have hc : Chain wHeap (wHeap.vehicleHead 0) [0, 1, 2] :=
    Chain.cons rfl (Chain.cons rfl (Chain.cons rfl Chain.nil))
  exact ⟨hc, by decide, (claim6_playerEnums wHeap 0 5 9 [0, 1, 2]).1 hc (by decide)⟩

/-- C7: each terrain convenience of GameMap is the stated pure composition of
the primitive tile accessors: the bulldoze/scorch/rubble operations equal
`SetTile(where, f(GetTile(where)))` for the corresponding TerrainManager
lookup f, and each lava-flow helper equals the fixed SetTile sequence with
its listed constant tile indices on the tile and its neighbours, with no
other operations. -/
theorem claim7_terrainConveniences : ∀ (h : Host) (w : Location),
    SetBulldozed h w = specTileCompose h opBulldozedIndex w
    ∧ CreateScorchMark h w = specTileCompose h opScorchIndex w
    ∧ CreateCommonRubble h w = specTileCompose h opCommonRubbleIndex w
    ∧ CreateRareRubble h w = specTileCompose h opRareRubbleIndex w
    ∧ CreateLavaFlowSW w = specLavaQuad w 0x447 0x45E 0x453 0x469
    ∧ CreateLavaFlowS w = specLavaPair w 0x474 0x47E
    ∧ CreateLavaFlowSE w = specLavaQuad w 0x489 0x4A0 0x494 0x4AB
    ∧ FreezeLavaFlowSW w = specLavaQuad w 0x44F 0x465 0x45A 0x470
    ∧ FreezeLavaFlowS w = specLavaPair w 0x47B 0x486
    ∧ FreezeLavaFlowSE w = specLavaQuad w 0x490 0x4A8 0x49C 0x4B2 := by
  intro h w
  refine ⟨rfl, rfl, rfl, rfl, ?_, ?_, ?_, ?_, ?_, ?_⟩ <;>
    simp [CreateLavaFlowSW, CreateLavaFlowS, CreateLavaFlowSE, FreezeLavaFlowSW,
      FreezeLavaFlowS, FreezeLavaFlowSE, SetLavaFlowHelper, setTileOps, specLavaQuad,
      specLavaPair, Location.add_def]

/-- C3: every trigger factory function declared in Trigger.h constructs its
trigger by a single thunk into its fixed host address — forwarding the
caller's enabled and oneShot flags (first, as ibools), its parameters, and
the trigger-function name — and returns the Trigger that external call
returns, with no trigger evaluation logic implemented locally.  One conjunct
per factory, with the exact address and argument list each one passes. -/
theorem claim3_triggerFactories : ∀ (h : Host) (en os : Bool) (fn text : String)
    (cond : Trigger) (ts : List Trigger) (tu : GameUnit) (w : Location) (area : MapRect)
    (needed time timeMin timeMax playerNum resourceType compare refAmount techID kitType
     refCount unitType cargoOrWeapon truckCargo structureType damage group cargoType
     cargoAmount sourceType : Int),
    IsSingleThunk h 0x479930 [bi en, bi os, .i cond.id, .s text]
      (CreateVictoryCondition h cond text os en)
    ∧ IsSingleThunk h 0x479980 [bi en, .i 0, .i cond.id, .s noText]
      (CreateFailureCondition h cond en)
    ∧ IsSingleThunk h 0x4794E0
      ([bi en, bi os, .i ts.length, .i needed, .s fn] ++ ts.map (fun t => .i t.id))
      (CreateSetTrigger h fn needed os en ts)
    ∧ IsSingleThunk h 0x478F30 [bi en, bi os, .s fn]
      (CreateLastOneStandingTrigger h fn os en)
    ∧ IsSingleThunk h 0x479260 [bi en, bi os, .i playerNum, .s fn]
      (CreateSpaceRaceTrigger h fn playerNum os en)
    ∧ IsSingleThunk h 0x479300 [bi en, bi os, .i time, .s fn]
      (CreateMidasTrigger h time fn os en)
    ∧ IsSingleThunk h 0x478DE0
      [bi en, bi os, .i resourceType, .i refAmount, .i playerNum, .i compare, .s fn]
      (CreateResourceTrigger h resourceType compare refAmount fn playerNum os en)
    ∧ IsSingleThunk h 0x478E90 [bi en, bi os, .i techID, .i playerNum, .s fn]
      (CreateResearchTrigger h techID fn playerNum os en)
    ∧ IsSingleThunk h 0x4791C0
      [bi en, bi os, .i playerNum, .i kitType, .i refCount, .s fn]
      (CreateKitTrigger h kitType refCount fn playerNum os en)
    ∧ IsSingleThunk h 0x479110
      [bi en, bi os, .i playerNum, .i unitType, .i cargoOrWeapon, .i refCount, .i compare, .s fn]
      (CreateCountTrigger h unitType cargoOrWeapon compare refCount fn playerNum os en)
    ∧ IsSingleThunk h 0x479110
      [bi en, bi os, .i playerNum, .i mapIDCargoTruck, .i truckCargo, .i refCount, .i compare,
        .s fn]
      (CreateCountTriggerTruckCargo h truckCargo compare refCount fn playerNum os en)
    ∧ IsSingleThunk h 0x479880
      [bi en, bi os, .i playerNum, .i structureType, .i refCount, .i compare, .s fn]
      (CreateOperationalTrigger h structureType compare refCount playerNum fn os en)
    ∧ IsSingleThunk h 0x479440 [bi en, bi os, .i playerNum, .i refCount, .i compare, .s fn]
      (CreateVehicleCountTrigger h compare refCount fn playerNum os en)
    ∧ IsSingleThunk h 0x4793A0 [bi en, bi os, .i playerNum, .i refCount, .i compare, .s fn]
      (CreateBuildingCountTrigger h compare refCount fn playerNum os en)
    ∧ IsSingleThunk h 0x478D00 [bi en, bi os, .i time, .s fn]
      (CreateTimeTrigger h time fn os en)
    ∧ IsSingleThunk h 0x478DA0 [bi en, bi os, .i timeMin, .i timeMax, .s fn]
      (CreateTimeTriggerRange h timeMin timeMax fn os en)
    ∧ IsSingleThunk h 0x4797A0 [bi en, bi os, .i tu.id, .i sourceType, .s fn]
      (CreateSpecialTarget h tu sourceType fn os en)
    ∧ IsSingleThunk h 0x4795A0 [bi en, bi os, .i group, .s fn]
      (CreateAttackedTrigger h group fn os en)
    ∧ IsSingleThunk h 0x479640 [bi en, bi os, .i group, .i damage, .s fn]
      (CreateDamagedTrigger h group damage fn os en)
    ∧ IsSingleThunk h 0x479070 [bi en, bi os, .i playerNum, .i w.x, .i w.y, .s fn]
      (CreatePointTrigger h w fn playerNum os en)
    ∧ IsSingleThunk h 0x478FC0
      [bi en, bi os, .i playerNum, .i area.x1, .i area.x2, .i area.Width, .i area.Height, .s fn]
      (CreateRectTrigger h area fn playerNum os en)
    ∧ IsSingleThunk h 0x4796E0
      [bi en, bi os, .i playerNum, .i area.x1, .i area.y1, .i area.Width, .i area.Height,
        .i refCount, .i unitType, .i cargoType, .i cargoAmount, .s fn]
      (CreateEscapeTrigger h area unitType refCount cargoType cargoAmount fn playerNum os en) := by
  intro h en os fn text cond ts tu w area needed time timeMin timeMax playerNum resourceType
    compare refAmount techID kitType refCount unitType cargoOrWeapon truckCargo structureType
    damage group cargoType cargoAmount sourceType
  exact ⟨⟨rfl, rfl⟩, ⟨rfl, rfl⟩, ⟨rfl, rfl⟩, ⟨rfl, rfl⟩, ⟨rfl, rfl⟩, ⟨rfl, rfl⟩,
    ⟨rfl, rfl⟩, ⟨rfl, rfl⟩, ⟨rfl, rfl⟩, ⟨rfl, rfl⟩, ⟨rfl, rfl⟩, ⟨rfl, rfl⟩, ⟨rfl, rfl⟩,
    ⟨rfl, rfl⟩, ⟨rfl, rfl⟩, ⟨rfl, rfl⟩, ⟨rfl, rfl⟩, ⟨rfl, rfl⟩, ⟨rfl, rfl⟩, ⟨rfl, rfl⟩,
    ⟨rfl, rfl⟩, ⟨rfl, rfl⟩⟩

example : GetNextBit 7 0 = (false, 32) := by decide
example : GetNextBit 7 12 = (true, 2) := by decide
example : GetNextBitPortable 7 0 = (false, 7) := by decide
example : GetNextBitPortable 7 12 = (true, 2) := by decide
example : SetBitFlag 0b1010 0b0110 true = 0b1110 := by decide
example : SetBitFlag 0b1010 0b0110 false = 0b1000 := by decide

end Tethys
